import Mathlib

/-!
# AP_Parachute: release-actuation state machine

Shallow embedding of `libraries/AP_Parachute/AP_Parachute.{h,cpp}`.

* `uint32_t` values (`_release_time`, the reading of `hal.scheduler->millis()`) are
  natural numbers below `2^32`; the unsigned subtraction is written with an explicit
  `% 4294967296`.
* `AP_Int8` / `AP_Int16` parameters are integers.
* The calls made on the collaborators (`RC_Channel_aux::set_radio`, `AP_Relay::on`,
  `AP_Relay::off`) are recorded, in order, as a list of `Call`s.
* `AP_Notify::flags.parachute_release` is a one-bit flag that lives outside the object;
  it is carried next to the object in `World`.
-/

namespace Parachute

/-! ## Constants of `AP_Parachute.h` -/

def AP_PARACHUTE_TRIGGER_TYPE_RELAY_0 : Int := 0
def AP_PARACHUTE_TRIGGER_TYPE_RELAY_1 : Int := 1
def AP_PARACHUTE_TRIGGER_TYPE_RELAY_2 : Int := 2
def AP_PARACHUTE_TRIGGER_TYPE_RELAY_3 : Int := 3
def AP_PARACHUTE_TRIGGER_TYPE_SERVO : Int := 10

def AP_PARACHUTE_RELEASE_DELAY_MS : Nat := 500
def AP_PARACHUTE_RELEASE_DURATION_MS : Nat := 1000

def AP_PARACHUTE_SERVO_ON_PWM_DEFAULT : Int := 1300
def AP_PARACHUTE_SERVO_OFF_PWM_DEFAULT : Int := 1100
def AP_PARACHUTE_ALT_MIN_DEFAULT : Int := 0
def AP_PARACHUTE_PITCHROLL_DEFAULT : Int := 50
def AP_PARACHUTE_FREEFALL_DEFAULT : Int := 5
def AP_PARACHUTE_HDOT_DEFAULT : Int := 10
def AP_PARACHUTE_ALT_MAX_DEFAULT : Int := 250
def AP_PARACHUTE_DURATION_DEFAULT : Int := 1000

/-- Number of values of a `uint32_t`. -/
def UINT32_MOD : Nat := 4294967296

/-! ## Data model -/

/-- A call made by `update()` on one of its collaborators.
`set_radio pwm` is `RC_Channel_aux::set_radio(RC_Channel_aux::k_parachute_release, pwm)`,
`relay_on v` is `_relay.on(v)` and `relay_off v` is `_relay.off(v)`, where `v` is the
value of the argument expression `_release_type`. -/
inductive Call where
  | set_radio (pwm : Int)
  | relay_on (ch : Int)
  | relay_off (ch : Int)
deriving DecidableEq, Repr

/-- The data members of `class AP_Parachute` (the reference `_relay` is represented by
the calls recorded on it). -/
structure AP_Parachute where
  _enabled : Int
  _release_type : Int
  _servo_on_pwm : Int
  _servo_off_pwm : Int
  _alt_min : Int
  _pitchroll_thres : Int
  _freefall_thres : Int
  _hdot_thres : Int
  _alt_max_thres : Int
  _duration_thres : Int
  _release_time : Nat
  _released : Bool
deriving DecidableEq, Repr

/-- The object together with the global flag `AP_Notify::flags.parachute_release`. -/
structure World where
  chute : AP_Parachute
  parachute_release : Bool
deriving DecidableEq, Repr

/-- Constructor `AP_Parachute(AP_Relay&)`: `_release_time(0)`, `_released(false)`, and the
parameter defaults of `var_info` installed by `AP_Param::setup_object_defaults`. -/
def AP_Parachute.new : AP_Parachute :=
  { _enabled := 1
    _release_type := AP_PARACHUTE_TRIGGER_TYPE_RELAY_0
    _servo_on_pwm := AP_PARACHUTE_SERVO_ON_PWM_DEFAULT
    _servo_off_pwm := AP_PARACHUTE_SERVO_OFF_PWM_DEFAULT
    _alt_min := AP_PARACHUTE_ALT_MIN_DEFAULT
    _pitchroll_thres := AP_PARACHUTE_PITCHROLL_DEFAULT
    _freefall_thres := AP_PARACHUTE_FREEFALL_DEFAULT
    _hdot_thres := AP_PARACHUTE_HDOT_DEFAULT
    _alt_max_thres := AP_PARACHUTE_ALT_MAX_DEFAULT
    _duration_thres := AP_PARACHUTE_DURATION_DEFAULT
    _release_time := 0
    _released := false }

/-- Start of the program: a freshly constructed object, notification flag clear. -/
def World.init : World :=
  { chute := AP_Parachute.new, parachute_release := false }

/-! ## Operations of `AP_Parachute.cpp` -/

/-- `void AP_Parachute::enabled(bool on_off)`: `_enabled = on_off; _release_time = 0;`. -/
def enabled (on_off : Bool) (w : World) : World :=
  { w with chute := { w.chute with _enabled := (if on_off then 1 else 0), _release_time := 0 } }

/-- `bool AP_Parachute::enabled() const { return _enabled; }`: the conversion of the
stored integer to `bool`. -/
def enabled_get (w : World) : Bool :=
  decide (w.chute._enabled ≠ 0)

/-- `void AP_Parachute::release()`, with `now` the value of `hal.scheduler->millis()`. -/
def release (now : Nat) (w : World) : World :=
  if w.chute._enabled ≤ 0 then
    w
  else
    { chute := { w.chute with _release_time := now }, parachute_release := true }

/-- The `uint32_t` subtraction `hal.scheduler->millis() - _release_time`. -/
def time_diff (now release_time : Nat) : Nat :=
  (now + UINT32_MOD - release_time) % UINT32_MOD

/-- `void AP_Parachute::update()`, with `now` the value of `hal.scheduler->millis()`.
Returns the new world and the collaborator calls made, in order. -/
def update (now : Nat) (w : World) : World × List Call :=
  if w.chute._enabled ≤ 0 ∨ w.chute._release_time = 0 then
    (w, [])
  else
    let td := time_diff now w.chute._release_time
    if w.chute._released = false then
      if td ≥ AP_PARACHUTE_RELEASE_DELAY_MS then
        let calls :=
          if w.chute._release_type = AP_PARACHUTE_TRIGGER_TYPE_SERVO then
            [Call.set_radio w.chute._servo_on_pwm]
          else if w.chute._release_type ≤ AP_PARACHUTE_TRIGGER_TYPE_RELAY_3 then
            [Call.relay_on w.chute._release_type]
          else
            []
        ({ w with chute := { w.chute with _released := true } }, calls)
      else
        (w, [])
    else if td ≥ AP_PARACHUTE_RELEASE_DELAY_MS + AP_PARACHUTE_RELEASE_DURATION_MS then
      let calls :=
        if w.chute._release_type = AP_PARACHUTE_TRIGGER_TYPE_SERVO then
          [Call.set_radio w.chute._servo_off_pwm]
        else if w.chute._release_type ≤ AP_PARACHUTE_TRIGGER_TYPE_RELAY_3 then
          [Call.relay_off w.chute._release_type]
        else
          []
      ({ chute := { w.chute with _released := false, _release_time := 0 },
         parachute_release := false }, calls)
    else
      (w, [])

/-- One call of a public operation, with the clock reading it observes. -/
inductive Op where
  | enabled (on_off : Bool)
  | release (now : Nat)
  | update (now : Nat)
deriving DecidableEq, Repr

/-- Execute one operation: the new world and the collaborator calls it made. -/
def step (op : Op) (w : World) : World × List Call :=
  match op with
  | Op.enabled b => (enabled b w, [])
  | Op.release now => (release now w, [])
  | Op.update now => update now w

/-- Execute a sequence of operations: final world and all collaborator calls, in order. -/
def run : List Op → World → World × List Call
  | [], w => (w, [])
  | op :: ops, w =>
    let r := step op w
    let r2 := run ops r.1
    (r2.1, r.2 ++ r2.2)

/-- Execute a sequence of operations and record, for every operation, the clock-free
observation made right after it: the calls it dispatched and the notification flag. -/
def observe : List Op → World → List (List Call × Bool)
  | [], _ => []
  | op :: ops, w =>
    let r := step op w
    (r.2, r.1.parachute_release) :: observe ops r.1

/-- Execute a sequence of operations and pair every collaborator call with the clock
reading of the `update()` that dispatched it (only `update()` dispatches calls). -/
def stamped : List Op → World → List (Nat × Call)
  | [], _ => []
  | op :: ops, w =>
    let r := step op w
    (match op with
      | Op.update now => r.2.map (fun c => (now, c))
      | _ => []) ++ stamped ops r.1

/-- The call `update()` dispatches when it engages an actuator of a recognized kind
(servo kind 10, or relay kind 0..3): lines 143-149 of `AP_Parachute.cpp`. -/
def on_call (c : AP_Parachute) : Call :=
  if c._release_type = AP_PARACHUTE_TRIGGER_TYPE_SERVO then Call.set_radio c._servo_on_pwm
  else Call.relay_on c._release_type

/-- The call `update()` dispatches when it retracts an actuator of a recognized kind:
lines 153-159 of `AP_Parachute.cpp`. -/
def off_call (c : AP_Parachute) : Call :=
  if c._release_type = AP_PARACHUTE_TRIGGER_TYPE_SERVO then Call.set_radio c._servo_off_pwm
  else Call.relay_off c._release_type

/-! ## Concrete configurations and scenarios -/

/-- A Pending controller for the C2/C3 witnesses: servo kind, released at clock 1000. -/
def pendingServo : World :=
  { chute := { AP_Parachute.new with _release_type := 10, _release_time := 1000 },
    parachute_release := true }

/-- An Active controller for the C3 witness: relay 2, released at clock 1000. -/
def activeRelay : World :=
  { chute := { AP_Parachute.new with
                _release_type := 2, _release_time := 1000, _released := true },
    parachute_release := true }

/-- The configuration of the spec scenario: servo actuator (kind 10), `servo_on_pwm = 1300`,
`servo_off_pwm = 1100`, freshly constructed. -/
def servoWorld : World :=
  { chute := { AP_Parachute.new with
                _release_type := 10, _servo_on_pwm := 1300, _servo_off_pwm := 1100 },
    parachute_release := false }

/-- The calls of the spec scenario with the request made at clock `t0`: `enabled(true)`,
`release()` at `t0`, then `update()` at `t0 + 100, t0 + 200, ..., t0 + 1600` (as read
from the 32-bit counter). -/
def scenarioOps (t0 : Nat) : List Op :=
  Op.enabled true :: Op.release t0 ::
    (List.range 16).map (fun k => Op.update ((t0 + 100 * (k + 1)) % UINT32_MOD))

/-- A Pending controller whose request was made 200 ms before the 32-bit counter wraps. -/
def wrapPending : World :=
  { chute := { AP_Parachute.new with _release_type := 10, _release_time := 4294967096 },
    parachute_release := true }

/-- A disabled controller in its initial Idle state. -/
def disabledIdle : World :=
  { chute := { AP_Parachute.new with _enabled := 0 }, parachute_release := false }

/-- An Active controller with servo kind, released at clock 1000. -/
def activeServo : World :=
  { chute := { AP_Parachute.new with
                _release_type := 10, _release_time := 1000, _released := true },
    parachute_release := true }

/-- A request, a repeated request and the engaging update, after `enabled(true)`. -/
def engagedOps : List Op :=
  [Op.enabled true, Op.release 1000, Op.release 1200, Op.update 1700]

/-- A call that does not disturb the bookkeeping of an engaged actuator: while
`_released` is true, `enabled(b)` is not called and `release()` is not called at clock
reading 0. -/
def allowed (w : World) : Op → Bool
  | Op.enabled _ => decide (w.chute._released = false)
  | Op.release now => decide (now ≠ 0 ∨ w.chute._released = false)
  | Op.update _ => true

/-- Every call of the sequence is `allowed` in the state in which it is made. -/
def allowedRun : List Op → World → Bool
  | [], _ => true
  | op :: ops, w => allowed w op && allowedRun ops (step op w).1

/-- A Pending controller whose stored actuator kind is the negative value -1. -/
def negativeKindPending : World :=
  { chute := { AP_Parachute.new with _release_type := -1, _release_time := 1000 },
    parachute_release := true }

/-- A freshly constructed controller whose stored `_enabled` parameter is -1. -/
def minusOneEnabled : World :=
  { chute := { AP_Parachute.new with _enabled := -1 }, parachute_release := false }

/-- The list of `n` calls that alternates between the engaging and the retracting call
of configuration `c`; it starts with the retracting call when `engaged` is true and with
the engaging call otherwise. -/
def alternation (c : AP_Parachute) : Bool → Nat → List Call
  | _, 0 => []
  | false, n + 1 => on_call c :: alternation c true n
  | true, n + 1 => off_call c :: alternation c false n

/-- A freshly constructed controller with the unrecognized actuator kind 7. -/
def kindSeven : World :=
  { chute := { AP_Parachute.new with _release_type := 7 }, parachute_release := false }

/-! ## Basic facts about the operations -/

theorem time_diff_add (t0 d : Nat) (ht0 : t0 < 4294967296) (hd : d < 4294967296) :
    time_diff ((t0 + d) % 4294967296) t0 = d := by
  unfold time_diff UINT32_MOD
  omega

theorem update_not_enabled (now : Nat) (w : World) (h : w.chute._enabled ≤ 0) :
    update now w = (w, []) := by
  simp [update, h]

theorem update_no_request (now : Nat) (w : World) (h : w.chute._release_time = 0) :
    update now w = (w, []) := by
  simp [update, h]

theorem run_append (ops1 ops2 : List Op) (w : World) :
    run (ops1 ++ ops2) w =
      ((run ops2 (run ops1 w).1).1, (run ops1 w).2 ++ (run ops2 (run ops1 w).1).2) := by
  induction ops1 generalizing w with
  | nil => simp [run]
  | cons op ops ih => simp [run, ih, List.append_assoc]

/-- While no request is recorded, any number of `update()` calls does nothing. -/
theorem run_updates_no_request (nows : List Nat) (w : World)
    (h : w.chute._release_time = 0) :
    run (nows.map Op.update) w = (w, []) := by
  induction nows with
  | nil => rfl
  | cons n ns ih => simp [run, step, update_no_request n w h, ih]

/-- While the controller is disabled, any number of `update()` calls does nothing. -/
theorem run_updates_not_enabled (nows : List Nat) (w : World)
    (h : w.chute._enabled ≤ 0) :
    run (nows.map Op.update) w = (w, []) := by
  induction nows with
  | nil => rfl
  | cons n ns ih => simp [run, step, update_not_enabled n w h, ih]

theorem observe_updates_not_enabled (nows : List Nat) (w : World)
    (h : w.chute._enabled ≤ 0) :
    observe (nows.map Op.update) w =
      List.replicate nows.length ([], w.parachute_release) := by
  induction nows with
  | nil => rfl
  | cons n ns ih => simp [observe, step, update_not_enabled n w h, ih, List.replicate_succ]

/-- Pending, elapsed below the delay: `update()` does nothing. -/
theorem update_pending_early (now : Nat) (w : World)
    (hen : 0 < w.chute._enabled) (ht0 : w.chute._release_time ≠ 0)
    (hrel : w.chute._released = false)
    (hd : time_diff now w.chute._release_time < 500) :
    update now w = (w, []) := by
  have hne : ¬ w.chute._enabled ≤ 0 := not_le.mpr hen
  simp [update, AP_PARACHUTE_RELEASE_DELAY_MS, hne, ht0, hrel, hd]

/-- Pending, elapsed at least the delay, recognized kind: `update()` engages. -/
theorem update_pending_fire (now : Nat) (w : World)
    (hen : 0 < w.chute._enabled) (ht0 : w.chute._release_time ≠ 0)
    (hrel : w.chute._released = false)
    (hkind : w.chute._release_type = 10 ∨
      (0 ≤ w.chute._release_type ∧ w.chute._release_type ≤ 3))
    (hd : 500 ≤ time_diff now w.chute._release_time) :
    update now w =
      ({ w with chute := { w.chute with _released := true } }, [on_call w.chute]) := by
  have hne : ¬ w.chute._enabled ≤ 0 := not_le.mpr hen
  rcases hkind with hk | ⟨_, hk3⟩
  · simp [update, on_call, AP_PARACHUTE_RELEASE_DELAY_MS, AP_PARACHUTE_TRIGGER_TYPE_SERVO,
      hne, ht0, hrel, hd, hk]
  · have hk10 : ¬ w.chute._release_type = 10 := by omega
    simp [update, on_call, AP_PARACHUTE_RELEASE_DELAY_MS, AP_PARACHUTE_TRIGGER_TYPE_SERVO,
      AP_PARACHUTE_TRIGGER_TYPE_RELAY_3, hne, ht0, hrel, hd, hk10, hk3]

/-- Active, elapsed below delay plus duration: `update()` does nothing. -/
theorem update_active_early (now : Nat) (w : World)
    (hen : 0 < w.chute._enabled) (ht0 : w.chute._release_time ≠ 0)
    (hrel : w.chute._released = true)
    (hd : time_diff now w.chute._release_time < 1500) :
    update now w = (w, []) := by
  have hne : ¬ w.chute._enabled ≤ 0 := not_le.mpr hen
  simp [update, AP_PARACHUTE_RELEASE_DELAY_MS, AP_PARACHUTE_RELEASE_DURATION_MS,
    hne, ht0, hrel, hd]

/-- Active, elapsed at least delay plus duration, recognized kind: `update()` retracts. -/
theorem update_active_fire (now : Nat) (w : World)
    (hen : 0 < w.chute._enabled) (ht0 : w.chute._release_time ≠ 0)
    (hrel : w.chute._released = true)
    (hkind : w.chute._release_type = 10 ∨
      (0 ≤ w.chute._release_type ∧ w.chute._release_type ≤ 3))
    (hd : 1500 ≤ time_diff now w.chute._release_time) :
    update now w =
      ({ chute := { w.chute with _released := false, _release_time := 0 },
         parachute_release := false }, [off_call w.chute]) := by
  have hne : ¬ w.chute._enabled ≤ 0 := not_le.mpr hen
  rcases hkind with hk | ⟨_, hk3⟩
  · simp [update, off_call, AP_PARACHUTE_RELEASE_DELAY_MS, AP_PARACHUTE_RELEASE_DURATION_MS,
      AP_PARACHUTE_TRIGGER_TYPE_SERVO, hne, ht0, hrel, hd, hk]
  · have hk10 : ¬ w.chute._release_type = 10 := by omega
    simp [update, off_call, AP_PARACHUTE_RELEASE_DELAY_MS, AP_PARACHUTE_RELEASE_DURATION_MS,
      AP_PARACHUTE_TRIGGER_TYPE_SERVO, AP_PARACHUTE_TRIGGER_TYPE_RELAY_3,
      hne, ht0, hrel, hd, hk10, hk3]

/-- With no request recorded, `update()` calls dispatch nothing. -/
theorem stamped_updates_no_request (nows : List Nat) (w : World)
    (h : w.chute._release_time = 0) :
    stamped (nows.map Op.update) w = [] := by
  induction nows with
  | nil => rfl
  | cons n ns ih => simp [stamped, step, update_no_request n w h, ih]

/-- From an Active state, `update()` calls dispatch at most the retracting call, and only
at an elapsed time of at least 1500. -/
theorem stamped_updates_active (nows : List Nat) (w : World)
    (hen : 0 < w.chute._enabled) (ht0 : w.chute._release_time ≠ 0)
    (hrel : w.chute._released = true)
    (hkind : w.chute._release_type = 10 ∨
      (0 ≤ w.chute._release_type ∧ w.chute._release_type ≤ 3)) :
    stamped (nows.map Op.update) w = [] ∨
    ∃ b, stamped (nows.map Op.update) w = [(b, off_call w.chute)] ∧
      1500 ≤ time_diff b w.chute._release_time := by
  induction nows with
  | nil => exact Or.inl rfl
  | cons n ns ih =>
    by_cases hd : 1500 ≤ time_diff n w.chute._release_time
    · refine Or.inr ⟨n, ?_, hd⟩
      simp [stamped, step, update_active_fire n w hen ht0 hrel hkind hd,
        stamped_updates_no_request]
    · have hlt : time_diff n w.chute._release_time < 1500 := not_le.mp hd
      simpa [stamped, step, update_active_early n w hen ht0 hrel hlt] using ih

/-- From a Pending state, `update()` calls dispatch nothing, or the engaging call at an
elapsed time of at least 500, possibly followed by the retracting call at an elapsed
time of at least 1500. -/
theorem stamped_updates_pending (nows : List Nat) (w : World)
    (hen : 0 < w.chute._enabled) (ht0 : w.chute._release_time ≠ 0)
    (hrel : w.chute._released = false)
    (hkind : w.chute._release_type = 10 ∨
      (0 ≤ w.chute._release_type ∧ w.chute._release_type ≤ 3)) :
    stamped (nows.map Op.update) w = [] ∨
    (∃ a, stamped (nows.map Op.update) w = [(a, on_call w.chute)] ∧
      500 ≤ time_diff a w.chute._release_time) ∨
    (∃ a b, stamped (nows.map Op.update) w =
        [(a, on_call w.chute), (b, off_call w.chute)] ∧
      500 ≤ time_diff a w.chute._release_time ∧
      1500 ≤ time_diff b w.chute._release_time) := by
  induction nows with
  | nil => exact Or.inl rfl
  | cons n ns ih =>
    by_cases hd : 500 ≤ time_diff n w.chute._release_time
    · have hact := stamped_updates_active ns
        { w with chute := { w.chute with _released := true } } hen ht0 rfl hkind
      have hs : stamped ((n :: ns).map Op.update) w =
          (n, on_call w.chute) ::
            stamped (ns.map Op.update)
              { w with chute := { w.chute with _released := true } } := by
        simp [stamped, step, update_pending_fire n w hen ht0 hrel hkind hd]
      rcases hact with h | ⟨b, hb, hb2⟩
      · exact Or.inr (Or.inl ⟨n, by rw [hs, h], hd⟩)
      · refine Or.inr (Or.inr ⟨n, b, ?_, hd, hb2⟩)
        rw [hs, hb]
        rfl
    · have hlt : time_diff n w.chute._release_time < 500 := not_le.mp hd
      simpa [stamped, step, update_pending_early n w hen ht0 hrel hlt] using ih

/-- No operation changes the configured actuator kind. -/
theorem step_release_type (op : Op) (w : World) :
    (step op w).1.chute._release_type = w.chute._release_type := by
  cases op with
  | enabled b => rfl
  | release now =>
    simp only [step, release]
    split_ifs <;> rfl
  | update now =>
    simp only [step, update]
    split_ifs <;> rfl

/-- With the servo kind, every call of one operation is a servo write. -/
theorem step_calls_servo (op : Op) (w : World) (hk : w.chute._release_type = 10) :
    ∀ c ∈ (step op w).2, ∃ pwm, c = Call.set_radio pwm := by
  cases op with
  | enabled b => simp [step]
  | release now => simp [step]
  | update now =>
    simp only [step, update, AP_PARACHUTE_TRIGGER_TYPE_SERVO, hk]
    split_ifs <;> simp

/-- With a kind of at most 3, every call of one operation is a relay call carrying
that kind. -/
theorem step_calls_relay (op : Op) (w : World) (hk : w.chute._release_type ≤ 3) :
    ∀ c ∈ (step op w).2,
      c = Call.relay_on w.chute._release_type ∨ c = Call.relay_off w.chute._release_type := by
  have hk10 : ¬ w.chute._release_type = 10 := by omega
  cases op with
  | enabled b => simp [step]
  | release now => simp [step]
  | update now =>
    simp only [step, update, AP_PARACHUTE_TRIGGER_TYPE_SERVO,
      AP_PARACHUTE_TRIGGER_TYPE_RELAY_3, hk10, hk]
    split_ifs <;> simp_all

/-! ## C1: repeated `release()` -/

/-- C1 (as stated, refuted): `release()` at clock 100 followed by `release()` at clock 400
on the enabled default controller leaves `_release_time = 400`, not the first timestamp
100. -/
theorem release_twice_restarts_clock :
    (release 100 World.init).chute._release_time = 100 ∧
    (release 100 World.init).chute._release_time ≠ 0 ∧
    0 < (release 100 World.init).chute._enabled ∧
    (release 400 (release 100 World.init)).chute._release_time = 400 ∧
    ¬ (release 400 (release 100 World.init)).chute._release_time =
        (release 100 World.init).chute._release_time := by
  decide

/-- C1 (amended): for every enabled controller that is already Pending or Active
(`_release_time = t0`, `t0 ≠ 0`) and every clock reading `now`, calling `release()` again
overwrites `_release_time` with `now` and raises the notification flag, changing nothing
else; the timestamp therefore stays `t0` exactly when `now = t0`. -/
theorem release_overwrites_release_time (w : World) (now : Nat)
    (hen : 0 < w.chute._enabled) (ht0 : w.chute._release_time ≠ 0) :
    release now w =
        { chute := { w.chute with _release_time := now }, parachute_release := true } ∧
    (release now w).chute._release_time = now ∧
    ((release now w).chute._release_time = w.chute._release_time ↔
        now = w.chute._release_time) := by
  have hne : ¬ w.chute._enabled ≤ 0 := not_le.mpr hen
  have hrun : release now w =
      { chute := { w.chute with _release_time := now }, parachute_release := true } := by
    simp [release, hne]
  refine ⟨hrun, ?_, ?_⟩
  · rw [hrun]
  · rw [hrun]

/-- C1, concrete instance of `release_overwrites_release_time` with its hypotheses discharged. -/
theorem release_overwrites_release_time_witness :
    0 < (release 100 World.init).chute._enabled ∧
    (release 100 World.init).chute._release_time ≠ 0 ∧
    (release 400 (release 100 World.init)).chute._release_time = 400 :=
  ⟨by decide, by decide,
    (release_overwrites_release_time (release 100 World.init) 400
      (by decide) (by decide)).2.1⟩

/-! ## C2, C3: the two timed transitions of `update()` -/

/-- C2: for every enabled Pending controller (`_release_time = t0 ≠ 0`,
`_released = false`) with a recognized actuator kind and every 32-bit clock reading `now`,
`update()` engages the actuator iff `(now - t0) mod 2^32 ≥ 500`; when it does it
dispatches exactly one actuator-on call (servo: `set_radio(_servo_on_pwm)`, relay `k`:
`relay.on(k)`), sets `_released` and changes nothing else (so `_release_time` stays
`t0`); when it does not, it dispatches nothing and leaves the state unchanged. -/
theorem update_pending_to_active (w : World) (now : Nat)
    (hen : 0 < w.chute._enabled)
    (ht0 : w.chute._release_time ≠ 0) (ht0lt : w.chute._release_time < 4294967296)
    (hrel : w.chute._released = false)
    (hkind : w.chute._release_type = 10 ∨
      (0 ≤ w.chute._release_type ∧ w.chute._release_type ≤ 3))
    (hnow : now < 4294967296) :
    ((update now w).1.chute._released = true ↔
        500 ≤ (now + 4294967296 - w.chute._release_time) % 4294967296) ∧
    ((update now w).2 ≠ [] ↔
        500 ≤ (now + 4294967296 - w.chute._release_time) % 4294967296) ∧
    (500 ≤ (now + 4294967296 - w.chute._release_time) % 4294967296 →
        (update now w).1 = { w with chute := { w.chute with _released := true } } ∧
        (update now w).1.chute._release_time = w.chute._release_time ∧
        (w.chute._release_type = 10 →
          (update now w).2 = [Call.set_radio w.chute._servo_on_pwm]) ∧
        (0 ≤ w.chute._release_type ∧ w.chute._release_type ≤ 3 →
          (update now w).2 = [Call.relay_on w.chute._release_type])) ∧
    (¬ 500 ≤ (now + 4294967296 - w.chute._release_time) % 4294967296 →
        update now w = (w, [])) := by
  have hne : ¬ w.chute._enabled ≤ 0 := not_le.mpr hen
  by_cases hd : 500 ≤ (now + 4294967296 - w.chute._release_time) % 4294967296
  · rcases hkind with hk | ⟨hk0, hk3⟩
    · simp [update, time_diff, UINT32_MOD, AP_PARACHUTE_RELEASE_DELAY_MS,
        AP_PARACHUTE_TRIGGER_TYPE_SERVO, AP_PARACHUTE_TRIGGER_TYPE_RELAY_3,
        hne, ht0, hrel, hd, hk]
    · have hk10 : ¬ w.chute._release_type = 10 := by omega
      simp [update, time_diff, UINT32_MOD, AP_PARACHUTE_RELEASE_DELAY_MS,
        AP_PARACHUTE_TRIGGER_TYPE_SERVO, AP_PARACHUTE_TRIGGER_TYPE_RELAY_3,
        hne, ht0, hrel, hd, hk10, hk3]
  · have hlt : (now + 4294967296 - w.chute._release_time) % 4294967296 < 500 :=
      not_le.mp hd
    simp [update, time_diff, UINT32_MOD, AP_PARACHUTE_RELEASE_DELAY_MS,
      hne, ht0, hrel, hd, hlt]

/-- C2, concrete instance of `update_pending_to_active` with its hypotheses discharged. -/
theorem update_pending_to_active_witness :
    ((update 1500 pendingServo).1.chute._released = true ↔
        500 ≤ (1500 + 4294967296 - pendingServo.chute._release_time) % 4294967296) ∧
    (update 1500 pendingServo).2 = [Call.set_radio 1300] :=
  have h := update_pending_to_active pendingServo 1500
    (by decide) (by decide) (by decide) (by decide) (by decide) (by decide)
  ⟨h.1, (h.2.2.1 (by decide)).2.2.1 (by decide)⟩

/-- C3: for every enabled Active controller (`_release_time = t0 ≠ 0`,
`_released = true`) with a recognized actuator kind and every 32-bit clock reading `now`,
`update()` returns to Idle iff `(now - t0) mod 2^32 ≥ 1500`; when it does it dispatches
exactly one actuator-off call (servo: `set_radio(_servo_off_pwm)`, relay `k`:
`relay.off(k)`), clears `_released`, `_release_time` and the notification flag and
changes nothing else; when it does not, it dispatches nothing and leaves state and flag
unchanged. -/
theorem update_active_to_idle (w : World) (now : Nat)
    (hen : 0 < w.chute._enabled)
    (ht0 : w.chute._release_time ≠ 0) (ht0lt : w.chute._release_time < 4294967296)
    (hrel : w.chute._released = true)
    (hkind : w.chute._release_type = 10 ∨
      (0 ≤ w.chute._release_type ∧ w.chute._release_type ≤ 3))
    (hnow : now < 4294967296) :
    (((update now w).1.chute._released = false ∧ (update now w).1.chute._release_time = 0) ↔
        1500 ≤ (now + 4294967296 - w.chute._release_time) % 4294967296) ∧
    ((update now w).2 ≠ [] ↔
        1500 ≤ (now + 4294967296 - w.chute._release_time) % 4294967296) ∧
    (1500 ≤ (now + 4294967296 - w.chute._release_time) % 4294967296 →
        (update now w).1 =
          { chute := { w.chute with _released := false, _release_time := 0 },
            parachute_release := false } ∧
        (w.chute._release_type = 10 →
          (update now w).2 = [Call.set_radio w.chute._servo_off_pwm]) ∧
        (0 ≤ w.chute._release_type ∧ w.chute._release_type ≤ 3 →
          (update now w).2 = [Call.relay_off w.chute._release_type])) ∧
    (¬ 1500 ≤ (now + 4294967296 - w.chute._release_time) % 4294967296 →
        update now w = (w, [])) := by
  have hne : ¬ w.chute._enabled ≤ 0 := not_le.mpr hen
  by_cases hd : 1500 ≤ (now + 4294967296 - w.chute._release_time) % 4294967296
  · rcases hkind with hk | ⟨hk0, hk3⟩
    · simp [update, time_diff, UINT32_MOD, AP_PARACHUTE_RELEASE_DELAY_MS,
        AP_PARACHUTE_RELEASE_DURATION_MS,
        AP_PARACHUTE_TRIGGER_TYPE_SERVO, AP_PARACHUTE_TRIGGER_TYPE_RELAY_3,
        hne, ht0, hrel, hd, hk]
    · have hk10 : ¬ w.chute._release_type = 10 := by omega
      simp [update, time_diff, UINT32_MOD, AP_PARACHUTE_RELEASE_DELAY_MS,
        AP_PARACHUTE_RELEASE_DURATION_MS,
        AP_PARACHUTE_TRIGGER_TYPE_SERVO, AP_PARACHUTE_TRIGGER_TYPE_RELAY_3,
        hne, ht0, hrel, hd, hk10, hk3]
  · have hlt : (now + 4294967296 - w.chute._release_time) % 4294967296 < 1500 :=
      not_le.mp hd
    simp [update, time_diff, UINT32_MOD, AP_PARACHUTE_RELEASE_DELAY_MS,
      AP_PARACHUTE_RELEASE_DURATION_MS, hne, ht0, hrel, hd, hlt]

/-- C3, concrete instance of `update_active_to_idle` with its hypotheses discharged. -/
theorem update_active_to_idle_witness :
    (update 2500 activeRelay).1.chute._release_time = 0 ∧
    (update 2500 activeRelay).1.parachute_release = false ∧
    (update 2500 activeRelay).2 = [Call.relay_off 2] :=
  have h := update_active_to_idle activeRelay 2500
    (by decide) (by decide) (by decide) (by decide) (by decide) (by decide)
  ⟨by rw [(h.2.2.1 (by decide)).1], by rw [(h.2.2.1 (by decide)).1],
    (h.2.2.1 (by decide)).2.2 (by decide)⟩

/-! ## C4: the spec scenario -/

/-- C4 (as stated, refuted): with the request made at clock 0, `release()` stores
`_release_time = 0`, every later `update()` returns at its first guard, so neither servo
call is ever made; and the notification flag is raised by `release()` itself and never
lowered. -/
theorem scenario_at_clock_zero :
    (run (scenarioOps 0) servoWorld).2 = [] ∧
    (run (scenarioOps 0) servoWorld).2.count (Call.set_radio 1300) ≠ 1 ∧
    observe (scenarioOps 0) servoWorld =
      ([], false) :: ([], true) :: List.replicate 16 ([], true) := by
  decide

/-- C4 (amended): in the spec scenario with the request made at any clock reading
`t0 ≠ 0` (servo kind, `servo_on_pwm = 1300`, `servo_off_pwm = 1100`, `enabled(true)`,
`release()` at `t0`, `update()` at `t0 + 100, ..., t0 + 1600` read from the 32-bit
counter), `set_radio(1300)` is issued exactly once, by the update at `t0 + 500`, and
`set_radio(1100)` exactly once, by the update at `t0 + 1500`; the notification flag
becomes true at the `release()` call (not at the `t0 + 500` update) and false at the
`t0 + 1500` update, and changes at no other point. -/
theorem scenario_trace (t0 : Nat) (h0 : t0 ≠ 0) (hlt : t0 < 4294967296) :
    observe (scenarioOps t0) servoWorld =
      [ ([], false),                       -- enabled(true)
        ([], true),                        -- release() at t0
        ([], true), ([], true), ([], true), ([], true),        -- +100 .. +400
        ([Call.set_radio 1300], true),     -- +500
        ([], true), ([], true), ([], true), ([], true), ([], true),
        ([], true), ([], true), ([], true), ([], true),        -- +600 .. +1400
        ([Call.set_radio 1100], false),    -- +1500
        ([], false) ] ∧                    -- +1600
    (run (scenarioOps t0) servoWorld).2 = [Call.set_radio 1300, Call.set_radio 1100] := by
  have hr : List.range 16 = [0, 1, 2, 3, 4, 5, 6, 7, 8, 9, 10, 11, 12, 13, 14, 15] := by
    decide
  have htd : ∀ d, d < 4294967296 → time_diff ((t0 + d) % 4294967296) t0 = d :=
    fun d hd => time_diff_add t0 d hlt hd
  constructor <;>
  simp [scenarioOps, hr, observe, run, step, servoWorld, enabled, release, update,
    AP_Parachute.new, UINT32_MOD, htd, h0,
    AP_PARACHUTE_RELEASE_DELAY_MS, AP_PARACHUTE_RELEASE_DURATION_MS,
    AP_PARACHUTE_TRIGGER_TYPE_SERVO]

/-- C4, concrete instance of `scenario_trace` with its hypotheses discharged. -/
theorem scenario_trace_witness :
    (run (scenarioOps 4294967000) servoWorld).2 =
      [Call.set_radio 1300, Call.set_radio 1100] :=
  (scenario_trace 4294967000 (by decide) (by decide)).2

/-! ## C5: a request made when the counter reads 0 -/

/-- C5 (the code at the failing input): on the enabled default controller, `release()`
at clock reading 0 stores `_release_time = 0` and raises the notification flag, but the
following `update()` calls at clock 500 and 1500 return at the `_release_time == 0` guard:
no call is dispatched and `_released` stays false. The same request made at clock 1
engages relay 0 at the update 500 ms later. -/
theorem release_at_clock_zero_never_engages :
    0 < World.init.chute._enabled ∧
    (release 0 World.init).chute._release_time = 0 ∧
    (release 0 World.init).parachute_release = true ∧
    update 500 (release 0 World.init) = (release 0 World.init, []) ∧
    run [Op.release 0, Op.update 500, Op.update 1500] World.init =
      (release 0 World.init, []) ∧
    (update 501 (release 1 World.init)).2 = [Call.relay_on 0] := by
  decide

/-- For every other clock reading the request is recognised: after `release()` at
`now ≠ 0` an `update()` at elapsed `d ≥ 500` sets `_released`. -/
theorem release_nonzero_then_update_engages (w : World) (now d : Nat)
    (hen : 0 < w.chute._enabled) (hrel : w.chute._released = false)
    (h0 : now ≠ 0) (hlt : now < 4294967296) (hd : d < 4294967296) (h500 : 500 ≤ d) :
    (release now w).chute._release_time = now ∧
    (update ((now + d) % 4294967296) (release now w)).1.chute._released = true := by
  have hne : ¬ w.chute._enabled ≤ 0 := not_le.mpr hen
  simp [release, update, hne, h0, hrel, time_diff_add now d hlt hd,
    AP_PARACHUTE_RELEASE_DELAY_MS, h500]

/-! ## C6: gating -/

/-- C6: for every disabled controller in its initial Idle state, `release()` followed by
any finite sequence of `update()` calls at any clock readings dispatches no call, never
changes the notification flag (it keeps its value after every single call), and leaves
the whole state, in particular `_release_time = 0` and `_released = false`, unchanged. -/
theorem gating_disabled (w : World) (now : Nat) (nows : List Nat)
    (hdis : w.chute._enabled ≤ 0)
    (hidle : w.chute._release_time = 0 ∧ w.chute._released = false) :
    run (Op.release now :: nows.map Op.update) w = (w, []) ∧
    observe (Op.release now :: nows.map Op.update) w =
      List.replicate (nows.length + 1) ([], w.parachute_release) ∧
    (run (Op.release now :: nows.map Op.update) w).1.chute._release_time = 0 ∧
    (run (Op.release now :: nows.map Op.update) w).1.chute._released = false := by
  have hr : release now w = w := by simp [release, hdis]
  have h1 : run (Op.release now :: nows.map Op.update) w = (w, []) := by
    simp [run, step, hr, run_updates_not_enabled nows w hdis]
  refine ⟨h1, ?_, ?_, ?_⟩
  · simp [observe, step, hr, observe_updates_not_enabled nows w hdis, List.replicate_succ]
  · rw [h1]; exact hidle.1
  · rw [h1]; exact hidle.2

/-- C6, concrete instance of `gating_disabled` with its hypotheses discharged. -/
theorem gating_disabled_witness :
    run (Op.release 7 :: [600, 1600, 5000].map Op.update) disabledIdle =
      (disabledIdle, []) :=
  (gating_disabled disabledIdle 7 [600, 1600, 5000] (by decide) (by decide)).1

/-! ## C7: reset of a pending request -/

/-- C7: for every Pending controller, after `enabled(false)` no sequence of `update()`
calls at any clock readings dispatches a call or sets `_released`; and after a subsequent
`enabled(true)` the same holds for every further sequence of `update()` calls (no
`release()` having been called again). -/
theorem reset_pending (w : World) (nows1 nows2 : List Nat)
    (ht0 : w.chute._release_time ≠ 0) (hrel : w.chute._released = false) :
    (run (Op.enabled false :: nows1.map Op.update) w).2 = [] ∧
    (run (Op.enabled false :: nows1.map Op.update) w).1.chute._released = false ∧
    (run (Op.enabled false :: nows1.map Op.update ++
          Op.enabled true :: nows2.map Op.update) w).2 = [] ∧
    (run (Op.enabled false :: nows1.map Op.update ++
          Op.enabled true :: nows2.map Op.update) w).1.chute._released = false := by
  have h1 : run (Op.enabled false :: nows1.map Op.update) w = (enabled false w, []) := by
    simp [run, step, run_updates_no_request nows1 (enabled false w) rfl]
  have h2 : run (Op.enabled true :: nows2.map Op.update) (enabled false w) =
      (enabled true (enabled false w), []) := by
    simp [run, step, run_updates_no_request nows2 (enabled true (enabled false w)) rfl]
  have h3 : run (Op.enabled false :: nows1.map Op.update ++
      Op.enabled true :: nows2.map Op.update) w = (enabled true (enabled false w), []) := by
    rw [run_append, h1]
    simp [h2]
  refine ⟨by rw [h1], ?_, by rw [h3], ?_⟩
  · rw [h1]; simpa [enabled] using hrel
  · rw [h3]; simpa [enabled] using hrel

/-- C7, concrete instance of `reset_pending` with its hypotheses discharged. -/
theorem reset_pending_witness :
    (run (Op.enabled false :: [1600, 1700].map Op.update ++
          Op.enabled true :: [2600, 9000].map Op.update) pendingServo).2 = [] :=
  (reset_pending pendingServo [1600, 1700] [2600, 9000] (by decide) (by decide)).2.2.1

/-! ## C8: counter wraparound -/

/-- C8: the elapsed time is the unsigned 32-bit difference, so for every enabled
controller with request time `t0 ≠ 0` and every offset `d < 2^32`, at the clock reading
`(t0 + d) mod 2^32` the elapsed time computed is `d`, and `update()` engages a Pending
controller iff `d ≥ 500` and retracts an Active controller iff `d ≥ 1500` (for a
recognized kind this is also exactly when it dispatches a call). -/
theorem wraparound_offsets (w : World) (d : Nat)
    (hen : 0 < w.chute._enabled)
    (ht0 : w.chute._release_time ≠ 0) (ht0lt : w.chute._release_time < 4294967296)
    (hd : d < 4294967296)
    (hkind : w.chute._release_type = 10 ∨
      (0 ≤ w.chute._release_type ∧ w.chute._release_type ≤ 3)) :
    ((w.chute._release_time + d) % 4294967296 + 4294967296 - w.chute._release_time)
        % 4294967296 = d ∧
    (w.chute._released = false →
      ((update ((w.chute._release_time + d) % 4294967296) w).1.chute._released = true
          ↔ 500 ≤ d) ∧
      ((update ((w.chute._release_time + d) % 4294967296) w).2 = [on_call w.chute]
          ↔ 500 ≤ d)) ∧
    (w.chute._released = true →
      ((update ((w.chute._release_time + d) % 4294967296) w).1.chute._released = false
          ↔ 1500 ≤ d) ∧
      ((update ((w.chute._release_time + d) % 4294967296) w).2 = [off_call w.chute]
          ↔ 1500 ≤ d)) := by
  have htd := time_diff_add w.chute._release_time d ht0lt hd
  refine ⟨by omega, ?_, ?_⟩
  · intro hrel
    by_cases h : 500 ≤ d
    · have hu := update_pending_fire ((w.chute._release_time + d) % 4294967296) w
        hen ht0 hrel hkind (by rw [htd]; exact h)
      simp [hu, h]
    · have hu := update_pending_early ((w.chute._release_time + d) % 4294967296) w
        hen ht0 hrel (by rw [htd]; omega)
      simp [hu, h, hrel]
  · intro hrel
    by_cases h : 1500 ≤ d
    · have hu := update_active_fire ((w.chute._release_time + d) % 4294967296) w
        hen ht0 hrel hkind (by rw [htd]; exact h)
      simp [hu, h]
    · have hu := update_active_early ((w.chute._release_time + d) % 4294967296) w
        hen ht0 hrel (by rw [htd]; omega)
      simp [hu, h, hrel]

/-- C8, concrete instance of `wraparound_offsets` with its hypotheses discharged. -/
theorem wraparound_offsets_witness :
    (4294967096 + 500) % 4294967296 = 300 ∧
    (300 + 4294967296 - 4294967096) % 4294967296 = 500 ∧
    (update 300 wrapPending).1.chute._released = true ∧
    (update 300 wrapPending).2 = [Call.set_radio 1300] :=
  have h := wraparound_offsets wrapPending 500
    (by decide) (by decide) (by decide) (by decide) (by decide)
  ⟨by decide, h.1, ((h.2.1 (by decide)).1).mpr (by decide),
    ((h.2.1 (by decide)).2).mpr (by decide)⟩

/-! ## C9: hold time -/

/-- C9 (as stated, refuted): on the default controller (relay 0, enabled), `release()` at
clock 1, `update()` at clock 1501 and `update()` at clock 1601 dispatch the relay-on call
at 1501 and the relay-off call at 1601, only 100 ms later. -/
theorem hold_time_below_duration :
    stamped [Op.release 1, Op.update 1501, Op.update 1601] World.init =
      [(1501, Call.relay_on 0), (1601, Call.relay_off 0)] ∧
    ¬ (1501 + AP_PARACHUTE_RELEASE_DURATION_MS ≤ 1601) := by
  decide

/-- C9 (amended): for an enabled controller with a recognized actuator kind and
`_released = false`, after `release()` at clock `t0 ≠ 0` and `update()` calls at
arbitrary clock readings, the calls dispatched are none, or the actuator-on call, or the
actuator-on call followed by the actuator-off call; the on call is dispatched at an
elapsed time (mod 2^32, since the request) of at least 500 and the off call at an elapsed
time of at least 1500. Hence, when the counter does not wrap (`t0 ≤ a ≤ b < 2^32`), the
hold time `b - a` plus the lateness `(a - t0) - 500` of the on call is at least 1000; in
particular, if the on call was dispatched at elapsed time exactly 500, the hold time is
at least 1000. -/
theorem off_call_after_request (w : World) (t0 : Nat) (nows : List Nat)
    (hen : 0 < w.chute._enabled) (hrel : w.chute._released = false)
    (hkind : w.chute._release_type = 10 ∨
      (0 ≤ w.chute._release_type ∧ w.chute._release_type ≤ 3))
    (h0 : t0 ≠ 0) (hlt : t0 < 4294967296) :
    stamped (Op.release t0 :: nows.map Op.update) w = [] ∨
    (∃ a, stamped (Op.release t0 :: nows.map Op.update) w = [(a, on_call w.chute)] ∧
      500 ≤ (a + 4294967296 - t0) % 4294967296) ∨
    (∃ a b, stamped (Op.release t0 :: nows.map Op.update) w =
        [(a, on_call w.chute), (b, off_call w.chute)] ∧
      500 ≤ (a + 4294967296 - t0) % 4294967296 ∧
      1500 ≤ (b + 4294967296 - t0) % 4294967296 ∧
      (t0 ≤ a → a ≤ b → b < 4294967296 → 1000 ≤ (b - a) + ((a - t0) - 500)) ∧
      (t0 ≤ a → a ≤ b → b < 4294967296 → a - t0 = 500 → 1000 ≤ b - a)) := by
  have hne : ¬ w.chute._enabled ≤ 0 := not_le.mpr hen
  have hr : release t0 w =
      { chute := { w.chute with _release_time := t0 }, parachute_release := true } := by
    simp [release, hne]
  have hs : stamped (Op.release t0 :: nows.map Op.update) w =
      stamped (nows.map Op.update)
        { chute := { w.chute with _release_time := t0 }, parachute_release := true } := by
    simp [stamped, step, hr]
  have hp := stamped_updates_pending nows
    { chute := { w.chute with _release_time := t0 }, parachute_release := true }
    hen h0 hrel hkind
  rw [hs]
  rcases hp with h | ⟨a, ha, ha2⟩ | ⟨a, b, hab, ha2, hb2⟩
  · exact Or.inl h
  · refine Or.inr (Or.inl ⟨a, ?_, ?_⟩)
    · rw [ha]; rfl
    · simpa [time_diff, UINT32_MOD] using ha2
  · have ha3 : 500 ≤ (a + 4294967296 - t0) % 4294967296 := by
      simpa [time_diff, UINT32_MOD] using ha2
    have hb3 : 1500 ≤ (b + 4294967296 - t0) % 4294967296 := by
      simpa [time_diff, UINT32_MOD] using hb2
    refine Or.inr (Or.inr ⟨a, b, ?_, ha3, hb3, ?_, ?_⟩)
    · rw [hab]; rfl
    · intro h1 h2 h3; omega
    · intro h1 h2 h3 h4; omega

/-- C9, concrete instance of `off_call_after_request` with its hypotheses discharged. -/
theorem off_call_after_request_witness :
    stamped (Op.release 1 :: [300, 501, 900, 1501, 1601].map Op.update) World.init = [] ∨
    (∃ a, stamped (Op.release 1 :: [300, 501, 900, 1501, 1601].map Op.update) World.init =
        [(a, on_call World.init.chute)] ∧
      500 ≤ (a + 4294967296 - 1) % 4294967296) ∨
    (∃ a b, stamped (Op.release 1 :: [300, 501, 900, 1501, 1601].map Op.update) World.init =
        [(a, on_call World.init.chute), (b, off_call World.init.chute)] ∧
      500 ≤ (a + 4294967296 - 1) % 4294967296 ∧
      1500 ≤ (b + 4294967296 - 1) % 4294967296 ∧
      (1 ≤ a → a ≤ b → b < 4294967296 → 1000 ≤ (b - a) + ((a - 1) - 500)) ∧
      (1 ≤ a → a ≤ b → b < 4294967296 → a - 1 = 500 → 1000 ≤ b - a)) :=
  off_call_after_request World.init 1 [300, 501, 900, 1501, 1601]
    (by decide) (by decide) (by decide) (by decide) (by decide)

/-! ## C10: actuator exclusivity -/

/-- C10: with the actuator kind held fixed (no operation changes it), for every sequence
of `enabled(b)`, `release()` and `update()` calls at any clock readings, from any state:
if the kind is Servo (10) every dispatched call is a servo write (no relay operation);
if the kind is a relay `k` in 0..3 every dispatched call is `relay.on(k)` or
`relay.off(k)` (no servo write, no other channel). -/
theorem actuator_exclusivity (ops : List Op) (w : World) :
    (run ops w).1.chute._release_type = w.chute._release_type ∧
    (w.chute._release_type = 10 →
      ∀ c ∈ (run ops w).2, ∃ pwm, c = Call.set_radio pwm) ∧
    (∀ k : Int, 0 ≤ k → k ≤ 3 → w.chute._release_type = k →
      ∀ c ∈ (run ops w).2, c = Call.relay_on k ∨ c = Call.relay_off k) := by
  induction ops generalizing w with
  | nil => simp [run]
  | cons op ops ih =>
    have hty := step_release_type op w
    obtain ⟨ih1, ih2, ih3⟩ := ih (step op w).1
    refine ⟨?_, ?_, ?_⟩
    · simp only [run]
      rw [ih1, hty]
    · intro hk c hc
      simp only [run, List.mem_append] at hc
      rcases hc with hc | hc
      · exact step_calls_servo op w hk c hc
      · exact ih2 (by rw [hty]; exact hk) c hc
    · intro k hk0 hk3 hk c hc
      simp only [run, List.mem_append] at hc
      rcases hc with hc | hc
      · have := step_calls_relay op w (by omega) c hc
        rw [hk] at this
        exact this
      · exact ih3 k hk0 hk3 (by rw [hty]; exact hk) c hc

/-- C10, concrete instance of `actuator_exclusivity` with its hypotheses discharged. -/
theorem actuator_exclusivity_witness :
    (∀ c ∈ (run [Op.release 5, Op.update 600, Op.enabled true, Op.release 700,
          Op.update 1300, Op.update 2300] pendingServo).2, ∃ pwm, c = Call.set_radio pwm) ∧
    (∀ c ∈ (run [Op.update 1600, Op.update 2600] activeRelay).2,
        c = Call.relay_on 2 ∨ c = Call.relay_off 2) :=
  ⟨(actuator_exclusivity _ pendingServo).2.1 (by decide),
   (actuator_exclusivity _ activeRelay).2.2 2 (by decide) (by decide) (by decide)⟩

/-! ## C11: invariant I1 -/

/-- One allowed call preserves "`_released` implies `_release_time ≠ 0`". -/
theorem step_keeps_request (op : Op) (w : World) (ha : allowed w op = true)
    (hI : w.chute._released = true → w.chute._release_time ≠ 0) :
    (step op w).1.chute._released = true → (step op w).1.chute._release_time ≠ 0 := by
  cases op with
  | enabled b =>
    simp only [allowed, decide_eq_true_eq] at ha
    simp [step, enabled, ha]
  | release now =>
    simp only [allowed, decide_eq_true_eq] at ha
    simp only [step, release]
    split_ifs
    · exact hI
    · intro hr
      rcases ha with h | h
      · exact h
      · simp [h] at hr
  | update now =>
    simp only [step, update]
    split_ifs <;> simp_all

/-- C11 (as stated, refuted): from the constructor's initial state, `release()` at clock
1000, `update()` at clock 1500 (the actuator is engaged) and then `enabled(false)` reach
a state with `_released = true` and `_release_time = 0`. -/
theorem engaged_without_request :
    (run [Op.release 1000, Op.update 1500, Op.enabled false] World.init).1.chute._released
      = true ∧
    (run [Op.release 1000, Op.update 1500, Op.enabled false] World.init).1.chute._release_time
      = 0 := by
  decide

/-- C11 (amended): in every state reachable from an initial runtime state
(`_release_time = 0`, `_released = false`, any configuration) by a finite sequence of
`enabled(b)`, `release()` and `update()` calls at any clock readings in which, while
`_released` is true, `enabled(b)` is not called and `release()` is not called at clock
reading 0, `_released = true` implies `_release_time ≠ 0`. -/
theorem released_implies_request (ops : List Op) (w : World)
    (hinit : w.chute._release_time = 0 ∧ w.chute._released = false)
    (hops : allowedRun ops w = true) :
    (run ops w).1.chute._released = true → (run ops w).1.chute._release_time ≠ 0 := by
  have hI : w.chute._released = true → w.chute._release_time ≠ 0 := by
    intro h
    rw [hinit.2] at h
    exact absurd h (by decide)
  clear hinit
  induction ops generalizing w with
  | nil => simpa [run] using hI
  | cons op ops ih =>
    simp only [allowedRun, Bool.and_eq_true] at hops
    simp only [run]
    exact ih (step op w).1 hops.2 (step_keeps_request op w hops.1 hI)

/-- C11, concrete instance of `released_implies_request`: a full cycle interleaved with
allowed calls, stopped while the actuator is engaged. -/
theorem released_implies_request_witness :
    (run engagedOps World.init).1.chute._released = true ∧
    (run engagedOps World.init).1.chute._release_time ≠ 0 :=
  ⟨by decide,
   released_implies_request engagedOps World.init (by decide) (by decide) (by decide)⟩

/-! ## C12: when the notification flag is raised -/

/-- C12 (as stated, refuted): on the default controller the notification flag is false
before `release()` and already true right after it, during the Pending delay (checked
after an `update()` at elapsed 100); the engaging `update()` at elapsed 500 finds it true
and leaves it true. -/
theorem flag_raised_by_release :
    World.init.parachute_release = false ∧
    (release 1000 World.init).parachute_release = true ∧
    (update 1100 (release 1000 World.init)).1.parachute_release = true ∧
    (update 1100 (release 1000 World.init)).1.chute._released = false ∧
    (update 1500 (release 1000 World.init)).2 = [Call.relay_on 0] ∧
    (update 1500 (release 1000 World.init)).1.parachute_release = true := by
  decide

/-- C12 (amended): the notification flag `parachute_release` becomes true in the
`release()` call on an enabled controller, i.e. at the start of the Pending warning
delay; every `update()` made while `_released` is false, in particular the one that
dispatches the actuator-on command, leaves the flag as it found it. -/
theorem flag_set_at_release (w : World) (now now2 : Nat) (hen : 0 < w.chute._enabled) :
    (release now w).parachute_release = true ∧
    (w.chute._released = false →
      (update now2 w).1.parachute_release = w.parachute_release) ∧
    (w.chute._released = false →
      (update now2 (release now w)).1.parachute_release = true) := by
  have hne : ¬ w.chute._enabled ≤ 0 := not_le.mpr hen
  have hr : release now w =
      { chute := { w.chute with _release_time := now }, parachute_release := true } := by
    simp [release, hne]
  have hu : ∀ v : World, v.chute._released = false →
      (update now2 v).1.parachute_release = v.parachute_release := by
    intro v hv
    simp only [update]
    split_ifs <;> simp_all
  refine ⟨by rw [hr], hu w, ?_⟩
  intro hrel
  rw [hu (release now w) (by rw [hr]; exact hrel), hr]

/-- C12, concrete instance of `flag_set_at_release`. -/
theorem flag_set_at_release_witness :
    (release 1000 World.init).parachute_release = true ∧
    (update 1500 (release 1000 World.init)).1.parachute_release = true :=
  ⟨(flag_set_at_release World.init 1000 1500 (by decide)).1,
   (flag_set_at_release World.init 1000 1500 (by decide)).2.2 (by decide)⟩

/-! ## C13: `enabled(false)` while Active -/

/-- C13 (as stated, refuted): for the Active controller `activeRelay` (request at clock
1000), after `enabled(false)`, with or without a following `enabled(true)`, the
`update()` at clock 2500 (elapsed 1500) dispatches nothing and `_released` stays true. -/
theorem active_cycle_not_completed :
    run [Op.enabled false, Op.update 2500] activeRelay = (enabled false activeRelay, []) ∧
    (run [Op.enabled false, Op.update 2500] activeRelay).1.chute._released = true ∧
    (run [Op.enabled false, Op.enabled true, Op.update 2500] activeRelay).2 = [] ∧
    (run [Op.enabled false, Op.enabled true, Op.update 2500] activeRelay).1.chute._released
      = true := by
  decide

/-- C13 (amended): for every controller in state Active, a later `enabled(false)` call
(whether or not followed by `enabled(true)`) abandons the cycle: `_release_time` is
cleared while `_released` stays true, and no sequence of `update()` calls at any clock
readings dispatches the actuator-off command or changes the state (no `release()` having
been called again). -/
theorem active_abandoned (w : World) (nows1 nows2 : List Nat)
    (ht0 : w.chute._release_time ≠ 0) (hrel : w.chute._released = true) :
    run (Op.enabled false :: nows1.map Op.update) w = (enabled false w, []) ∧
    run (Op.enabled false :: nows1.map Op.update ++
          Op.enabled true :: nows2.map Op.update) w =
      (enabled true (enabled false w), []) ∧
    (enabled false w).chute._released = true ∧
    (enabled false w).chute._release_time = 0 ∧
    (enabled true (enabled false w)).chute._released = true ∧
    (enabled true (enabled false w)).chute._release_time = 0 := by
  have h1 : run (Op.enabled false :: nows1.map Op.update) w = (enabled false w, []) := by
    simp [run, step, run_updates_no_request nows1 (enabled false w) rfl]
  have h2 : run (Op.enabled true :: nows2.map Op.update) (enabled false w) =
      (enabled true (enabled false w), []) := by
    simp [run, step, run_updates_no_request nows2 (enabled true (enabled false w)) rfl]
  refine ⟨h1, ?_, ?_, rfl, ?_, rfl⟩
  · rw [run_append, h1]
    simp [h2]
  · simpa [enabled] using hrel
  · simpa [enabled] using hrel

/-- C13, concrete instance of `active_abandoned`. -/
theorem active_abandoned_witness :
    run (Op.enabled false :: [2500, 2600].map Op.update) activeRelay =
      (enabled false activeRelay, []) ∧
    (enabled false activeRelay).chute._released = true :=
  ⟨(active_abandoned activeRelay [2500, 2600] [] (by decide) (by decide)).1,
   (active_abandoned activeRelay [2500, 2600] [] (by decide) (by decide)).2.2.1⟩

/-! ## C14: effect and frame of `enabled(false)` -/

/-- C14: from every state, `enabled(false)` stores 0 in the enable flag (the getter then
returns false) and 0 in `_release_time`, leaves `_released` and every configuration
field (actuator kind, PWM values, thresholds) unchanged, dispatches no call and does not
change the notification flag. -/
theorem enabled_false_frame (w : World) :
    (enabled false w).chute._enabled = 0 ∧
    enabled_get (enabled false w) = false ∧
    (enabled false w).chute._release_time = 0 ∧
    (enabled false w).chute._released = w.chute._released ∧
    (enabled false w).chute._release_type = w.chute._release_type ∧
    (enabled false w).chute._servo_on_pwm = w.chute._servo_on_pwm ∧
    (enabled false w).chute._servo_off_pwm = w.chute._servo_off_pwm ∧
    (enabled false w).chute._alt_min = w.chute._alt_min ∧
    (enabled false w).chute._pitchroll_thres = w.chute._pitchroll_thres ∧
    (enabled false w).chute._freefall_thres = w.chute._freefall_thres ∧
    (enabled false w).chute._hdot_thres = w.chute._hdot_thres ∧
    (enabled false w).chute._alt_max_thres = w.chute._alt_max_thres ∧
    (enabled false w).chute._duration_thres = w.chute._duration_thres ∧
    (enabled false w).parachute_release = w.parachute_release ∧
    step (Op.enabled false) w = (enabled false w, []) ∧
    enabled false w =
      { w with chute := { w.chute with _enabled := 0, _release_time := 0 } } := by
  simp [enabled, enabled_get, step]

/-! ## C15: relay channel range -/

/-- For a stored kind that is not negative, every relay call of `update()` is on a
channel in 0..3. -/
theorem relay_channel_of_nonneg_kind (now : Nat) (w : World)
    (hk : 0 ≤ w.chute._release_type) :
    ∀ c ∈ (update now w).2, ∀ ch, (c = Call.relay_on ch ∨ c = Call.relay_off ch) →
      0 ≤ ch ∧ ch ≤ 3 := by
  intro c hc ch hch
  simp only [update, AP_PARACHUTE_TRIGGER_TYPE_SERVO, AP_PARACHUTE_TRIGGER_TYPE_RELAY_3] at hc
  split_ifs at hc <;> simp at hc <;> rcases hch with h | h <;> simp_all

/-- C15 (the code at the failing input): with the stored actuator kind -1, an enabled
Pending controller (request at clock 1000) calls `_relay.on(-1)` at the update at clock
1500 and `_relay.off(-1)` at the update at clock 2500: the value passed is not a channel
in 0..3. -/
theorem relay_call_with_negative_kind :
    0 < negativeKindPending.chute._enabled ∧
    (-128 ≤ negativeKindPending.chute._release_type ∧
      negativeKindPending.chute._release_type ≤ 127) ∧
    (update 1500 negativeKindPending).2 = [Call.relay_on (-1)] ∧
    (update 2500 (update 1500 negativeKindPending).1).2 = [Call.relay_off (-1)] ∧
    ¬ (0 ≤ (-1 : Int) ∧ (-1 : Int) ≤ 3) := by
  decide

/-! ## C16: the `enabled()` getter and the gating -/

/-- For a stored value that is not negative, the getter agrees with the gating test. -/
theorem enabled_get_of_nonneg (w : World) (h : 0 ≤ w.chute._enabled) :
    enabled_get w = true ↔ 0 < w.chute._enabled := by
  simp only [enabled_get, decide_eq_true_eq]
  omega

/-- C16 (the code at the failing input): with the stored value `_enabled = -1` the getter
`enabled()` returns true, while `release()` returns at its `_enabled <= 0` guard (state
and flag unchanged) and `update()` returns at the same guard even with a request recorded
and elapsed time 1500. -/
theorem getter_disagrees_with_gating :
    minusOneEnabled.chute._enabled = -1 ∧
    enabled_get minusOneEnabled = true ∧
    ¬ (0 < minusOneEnabled.chute._enabled) ∧
    release 1000 minusOneEnabled = minusOneEnabled ∧
    update 2500 { minusOneEnabled with
        chute := { minusOneEnabled.chute with _release_time := 1000 } } =
      ({ minusOneEnabled with
        chute := { minusOneEnabled.chute with _release_time := 1000 } }, []) := by
  decide

/-! ## C17: alternation of the dispatched commands -/

/-- No operation changes the engaging or the retracting call of the configuration. -/
theorem step_on_off_call (op : Op) (w : World) :
    on_call (step op w).1.chute = on_call w.chute ∧
    off_call (step op w).1.chute = off_call w.chute := by
  cases op with
  | enabled b => exact ⟨rfl, rfl⟩
  | release now =>
    simp only [step, release]
    split_ifs <;> exact ⟨rfl, rfl⟩
  | update now =>
    simp only [step, update]
    split_ifs <;> exact ⟨rfl, rfl⟩

/-- With a recognized kind, `update()` dispatches nothing and keeps `_released`, or
engages (one engaging call, from `_released = false`), or retracts (one retracting call,
from `_released = true`). -/
theorem update_cases (now : Nat) (w : World)
    (hkind : w.chute._release_type = 10 ∨
      (0 ≤ w.chute._release_type ∧ w.chute._release_type ≤ 3)) :
    ((update now w).2 = [] ∧ (update now w).1.chute._released = w.chute._released) ∨
    (w.chute._released = false ∧ (update now w).2 = [on_call w.chute] ∧
      (update now w).1.chute._released = true) ∨
    (w.chute._released = true ∧ (update now w).2 = [off_call w.chute] ∧
      (update now w).1.chute._released = false) := by
  by_cases hen : w.chute._enabled ≤ 0
  · exact Or.inl (by simp [update_not_enabled now w hen])
  by_cases ht0 : w.chute._release_time = 0
  · exact Or.inl (by simp [update_no_request now w ht0])
  have hen2 : 0 < w.chute._enabled := not_le.mp hen
  cases hrel : w.chute._released with
  | false =>
    by_cases hd : 500 ≤ time_diff now w.chute._release_time
    · exact Or.inr (Or.inl
        (by simp [update_pending_fire now w hen2 ht0 hrel hkind hd]))
    · exact Or.inl
        (by simp [update_pending_early now w hen2 ht0 hrel (not_le.mp hd), hrel])
  | true =>
    by_cases hd : 1500 ≤ time_diff now w.chute._release_time
    · exact Or.inr (Or.inr
        (by simp [update_active_fire now w hen2 ht0 hrel hkind hd]))
    · exact Or.inl
        (by simp [update_active_early now w hen2 ht0 hrel (not_le.mp hd), hrel])

/-- The three cases of `update_cases`, for any operation. -/
theorem step_cases (op : Op) (w : World)
    (hkind : w.chute._release_type = 10 ∨
      (0 ≤ w.chute._release_type ∧ w.chute._release_type ≤ 3)) :
    ((step op w).2 = [] ∧ (step op w).1.chute._released = w.chute._released) ∨
    (w.chute._released = false ∧ (step op w).2 = [on_call w.chute] ∧
      (step op w).1.chute._released = true) ∨
    (w.chute._released = true ∧ (step op w).2 = [off_call w.chute] ∧
      (step op w).1.chute._released = false) := by
  cases op with
  | enabled b => exact Or.inl ⟨rfl, rfl⟩
  | release now =>
    refine Or.inl ⟨rfl, ?_⟩
    simp only [step, release]
    split_ifs <;> rfl
  | update now => exact update_cases now w hkind

/-- From any state with a recognized kind, the calls of a run alternate, starting
according to `_released`, and `_released` flips with every call. -/
theorem run_alternation (ops : List Op) (w : World)
    (hkind : w.chute._release_type = 10 ∨
      (0 ≤ w.chute._release_type ∧ w.chute._release_type ≤ 3)) :
    (run ops w).2 = alternation w.chute w.chute._released (run ops w).2.length ∧
    (w.chute._released = false →
      ((run ops w).1.chute._released = true ↔ (run ops w).2.length % 2 = 1)) ∧
    (w.chute._released = true →
      ((run ops w).1.chute._released = true ↔ (run ops w).2.length % 2 = 0)) := by
  induction ops generalizing w with
  | nil =>
    refine ⟨by simp [run, alternation], ?_, ?_⟩ <;> intro h <;> simp [run, h]
  | cons op ops ih =>
    have hty := step_release_type op w
    have hcalls := step_on_off_call op w
    have hk2 : (step op w).1.chute._release_type = 10 ∨
        (0 ≤ (step op w).1.chute._release_type ∧ (step op w).1.chute._release_type ≤ 3) := by
      rw [hty]; exact hkind
    obtain ⟨ih1, ih2, ih3⟩ := ih (step op w).1 hk2
    have halt : ∀ r n, alternation (step op w).1.chute r n = alternation w.chute r n := by
      intro r n
      induction n generalizing r with
      | zero => cases r <;> rfl
      | succ n ihn => cases r <;> simp [alternation, ihn, hcalls.1, hcalls.2]
    rw [halt] at ih1
    rcases step_cases op w hkind with ⟨hc, hr⟩ | ⟨hr0, hc, hr⟩ | ⟨hr0, hc, hr⟩
    · rw [hr] at ih1 ih2 ih3
      simp only [run, hc, List.nil_append]
      exact ⟨ih1, ih2, ih3⟩
    · rw [hr] at ih1
      simp only [run, hc, List.singleton_append, List.length_cons]
      refine ⟨?_, ?_, ?_⟩
      · rw [hr0]
        simp only [alternation]
        rw [← ih1]
      · intro _
        rw [ih3 hr]
        omega
      · intro h
        rw [hr0] at h
        exact absurd h (by decide)
    · rw [hr] at ih1
      simp only [run, hc, List.singleton_append, List.length_cons]
      refine ⟨?_, ?_, ?_⟩
      · rw [hr0]
        simp only [alternation]
        rw [← ih1]
      · intro h
        rw [hr0] at h
        exact absurd h (by decide)
      · intro _
        rw [ih2 hr]
        omega

/-- C17: with a fixed recognized actuator kind, in every execution from an initial
runtime state (`_release_time = 0`, `_released = false`, any configuration) under any
sequence of `enabled(b)`, `release()` and `update()` calls at any clock readings, the
dispatched calls are on, off, on, off, ... starting with on (position by position the
engaging and the retracting call of the configuration); every `update()` dispatches at
most one call; and `_released` is true exactly when the number of dispatched calls is
odd, i.e. when the last dispatched call was an on call. -/
theorem command_alternation (ops : List Op) (w : World)
    (hkind : w.chute._release_type = 10 ∨
      (0 ≤ w.chute._release_type ∧ w.chute._release_type ≤ 3))
    (hinit : w.chute._release_time = 0 ∧ w.chute._released = false) :
    (run ops w).2 = alternation w.chute false (run ops w).2.length ∧
    ((run ops w).1.chute._released = true ↔ (run ops w).2.length % 2 = 1) ∧
    (∀ (now : Nat) (pre : List Op),
      (update now (run pre w).1).2.length ≤ 1) := by
  obtain ⟨h1, h2, _⟩ := run_alternation ops w hkind
  rw [hinit.2] at h1
  refine ⟨h1, h2 hinit.2, ?_⟩
  intro now pre
  have hk2 : (run pre w).1.chute._release_type = 10 ∨
      (0 ≤ (run pre w).1.chute._release_type ∧ (run pre w).1.chute._release_type ≤ 3) := by
    have hpre : ∀ (l : List Op) (v : World),
        (run l v).1.chute._release_type = v.chute._release_type := by
      intro l
      induction l with
      | nil => intro v; rfl
      | cons o l ihl =>
        intro v
        simp only [run]
        rw [ihl, step_release_type]
    rw [hpre]; exact hkind
  rcases update_cases now (run pre w).1 hk2 with ⟨hc, _⟩ | ⟨_, hc, _⟩ | ⟨_, hc, _⟩ <;>
    simp [hc]

/-- C17, concrete instance of `command_alternation`: two full cycles on the default
controller. -/
theorem command_alternation_witness :
    (run [Op.release 1000, Op.update 1500, Op.update 2500, Op.release 3000,
          Op.update 3500, Op.update 4500] World.init).2 =
      alternation World.init.chute false
        (run [Op.release 1000, Op.update 1500, Op.update 2500, Op.release 3000,
          Op.update 3500, Op.update 4500] World.init).2.length ∧
    (run [Op.release 1000, Op.update 1500, Op.update 2500, Op.release 3000,
          Op.update 3500, Op.update 4500] World.init).2 =
      [Call.relay_on 0, Call.relay_off 0, Call.relay_on 0, Call.relay_off 0] :=
  ⟨(command_alternation _ World.init (by decide) (by decide)).1, by decide⟩

/-! ## C18: `enabled(true)` on an enabled Pending controller -/

/-- C18: `enabled(on_off)` clears `_release_time` for both argument values; so calling
`enabled(true)` on an already-enabled Pending controller cancels the pending request: no
sequence of later `update()` calls at any clock readings dispatches a call or sets
`_released`, while the controller stays enabled; a new `release()` (at a clock reading
`t1 ≠ 0`) is what makes a later `update()` at elapsed `d ≥ 500` engage again. -/
theorem enabled_true_cancels_pending (w : World) (b : Bool) (nows : List Nat) (t1 d : Nat)
    (hen : 0 < w.chute._enabled)
    (ht0 : w.chute._release_time ≠ 0) (hrel : w.chute._released = false)
    (ht1 : t1 ≠ 0) (ht1lt : t1 < 4294967296) (hd : d < 4294967296) (h500 : 500 ≤ d) :
    (enabled b w).chute._release_time = 0 ∧
    (enabled true w).chute._enabled = 1 ∧
    run (Op.enabled true :: nows.map Op.update) w = (enabled true w, []) ∧
    (run (Op.enabled true :: nows.map Op.update) w).1.chute._released = false ∧
    (update ((t1 + d) % 4294967296)
      (release t1 (run (Op.enabled true :: nows.map Op.update) w).1)).1.chute._released
        = true := by
  have h1 : run (Op.enabled true :: nows.map Op.update) w = (enabled true w, []) := by
    simp [run, step, run_updates_no_request nows (enabled true w) rfl]
  have hrel2 : (enabled true w).chute._released = false := by
    simpa [enabled] using hrel
  refine ⟨rfl, rfl, h1, ?_, ?_⟩
  · rw [h1]; exact hrel2
  · rw [h1]
    exact (release_nonzero_then_update_engages (enabled true w) t1 d
      (by simp [enabled]) hrel2 ht1 ht1lt hd h500).2

/-- C18, concrete instance of `enabled_true_cancels_pending`. -/
theorem enabled_true_cancels_pending_witness :
    run (Op.enabled true :: [1500, 2500, 9000].map Op.update) pendingServo =
      (enabled true pendingServo, []) :=
  (enabled_true_cancels_pending pendingServo true [1500, 2500, 9000] 3000 500
    (by decide) (by decide) (by decide) (by decide) (by decide) (by decide)
    (by decide)).2.2.1

/-! ## C19: the notification flag after an aborted release -/

/-- While no request is recorded, `update()` calls dispatch nothing and keep the flag. -/
theorem observe_updates_no_request (nows : List Nat) (w : World)
    (h : w.chute._release_time = 0) :
    observe (nows.map Op.update) w =
      List.replicate nows.length ([], w.parachute_release) := by
  induction nows with
  | nil => rfl
  | cons n ns ih => simp [observe, step, update_no_request n w h, ih, List.replicate_succ]

/-- The flag is lowered only by the Active to Idle branch of `update()`. -/
theorem flag_lowered_only_by_retract (op : Op) (w : World)
    (hflag : w.parachute_release = true)
    (hlow : (step op w).1.parachute_release = false) :
    ∃ now, op = Op.update now ∧ 0 < w.chute._enabled ∧ w.chute._released = true ∧
      w.chute._release_time ≠ 0 ∧ 1500 ≤ time_diff now w.chute._release_time := by
  cases op with
  | enabled b => simp [step, enabled, hflag] at hlow
  | release now =>
    simp only [step, release] at hlow
    split_ifs at hlow
    · simp [hflag] at hlow
  | update now =>
    refine ⟨now, rfl, ?_⟩
    simp only [step, update, AP_PARACHUTE_RELEASE_DELAY_MS,
      AP_PARACHUTE_RELEASE_DURATION_MS] at hlow
    split_ifs at hlow with h1 h2 h3 h4 <;> simp_all

/-- C19: `release()` on an enabled controller sets the notification flag immediately;
`enabled(b)` never changes the flag; hence after `release()` followed by `enabled(b)`
(either argument) during Pending, the flag is true after each of these calls and after
every one of any sequence of subsequent `update()` calls, none of which dispatches a
call; and in general a call lowers a raised flag only if it is an `update()` taking the
Active to Idle transition (enabled, `_released`, elapsed at least 1500). -/
theorem flag_after_aborted_release (w : World) (now : Nat) (b : Bool) (nows : List Nat)
    (hen : 0 < w.chute._enabled) (hrel : w.chute._released = false) :
    (release now w).parachute_release = true ∧
    (∀ (v : World) (b2 : Bool), (enabled b2 v).parachute_release = v.parachute_release) ∧
    observe (Op.release now :: Op.enabled b :: nows.map Op.update) w =
      List.replicate (nows.length + 2) ([], true) ∧
    (run (Op.release now :: Op.enabled b :: nows.map Op.update) w).1.parachute_release
      = true ∧
    (∀ (v : World) (op : Op), v.parachute_release = true →
      (step op v).1.parachute_release = false →
      ∃ n, op = Op.update n ∧ 0 < v.chute._enabled ∧ v.chute._released = true ∧
        v.chute._release_time ≠ 0 ∧ 1500 ≤ time_diff n v.chute._release_time) := by
  have hne : ¬ w.chute._enabled ≤ 0 := not_le.mpr hen
  have hr : release now w =
      { chute := { w.chute with _release_time := now }, parachute_release := true } := by
    simp [release, hne]
  refine ⟨by rw [hr], fun v b2 => rfl, ?_, ?_,
    fun v op h1 h2 => flag_lowered_only_by_retract op v h1 h2⟩
  · simp only [observe, step, hr]
    rw [observe_updates_no_request nows _ rfl]
    simp [enabled, List.replicate_succ]
  · simp only [run, step, hr]
    rw [run_updates_no_request nows _ rfl]
    rfl

/-- C19, concrete instance of `flag_after_aborted_release`. -/
theorem flag_after_aborted_release_witness :
    observe (Op.release 1000 :: Op.enabled false :: [1500, 2500].map Op.update) World.init =
      List.replicate 4 ([], true) :=
  (flag_after_aborted_release World.init 1000 false [1500, 2500]
    (by decide) (by decide)).2.2.1

/-! ## C20: unrecognized actuator kinds -/

/-- With a kind above 3 other than 10, no operation dispatches a call. -/
theorem step_calls_unrecognized (op : Op) (w : World)
    (hk : 3 < w.chute._release_type ∧ w.chute._release_type ≠ 10) :
    (step op w).2 = [] := by
  have hk3 : ¬ w.chute._release_type ≤ 3 := not_le.mpr hk.1
  cases op with
  | enabled b => rfl
  | release now => rfl
  | update now =>
    simp only [step, update, AP_PARACHUTE_TRIGGER_TYPE_SERVO,
      AP_PARACHUTE_TRIGGER_TYPE_RELAY_3, hk.2, hk3]
    split_ifs <;> simp_all

/-- With a kind above 3 other than 10, no run dispatches a call. -/
theorem run_calls_unrecognized (ops : List Op) (w : World)
    (hk : 3 < w.chute._release_type ∧ w.chute._release_type ≠ 10) :
    (run ops w).2 = [] := by
  induction ops generalizing w with
  | nil => rfl
  | cons op ops ih =>
    simp only [run, step_calls_unrecognized op w hk, List.nil_append]
    exact ih (step op w).1 (by rw [step_release_type]; exact hk)

/-- C20 (as stated, refuted): with the unrecognized kind 7 on an enabled controller,
(a) after `release()` at clock 0 the `update()` at clock 500 (elapsed 500) returns at the
`_release_time == 0` guard and `_released` stays false; (b) after a first request at
clock 1000 has engaged (`update()` at 1500) and `release()` is called again at clock
1600, the `update()` at clock 3100 (elapsed 1500, so at least 500) does not set
`_released` but clears it. No call is dispatched in either run. -/
theorem unrecognized_kind_cycle_not_always_run :
    0 < kindSeven.chute._enabled ∧ kindSeven.chute._release_type = 7 ∧
    update 500 (release 0 kindSeven) = (release 0 kindSeven, []) ∧
    (update 500 (release 0 kindSeven)).1.chute._released = false ∧
    (run [Op.release 1000, Op.update 1500, Op.release 1600] kindSeven).1.chute._released
      = true ∧
    (3100 + 4294967296 - 1600) % 4294967296 = 1500 ∧
    (run [Op.release 1000, Op.update 1500, Op.release 1600, Op.update 3100]
      kindSeven).1.chute._released = false ∧
    (run [Op.release 1000, Op.update 1500, Op.release 1600, Op.update 3100]
      kindSeven).2 = [] := by
  decide

/-- C20 (amended): for every actuator-kind value in 4..9 or 11..127, an enabled controller with
`_released = false` still runs the full cycle after `release()` at a clock reading
`t0 ≠ 0`: the `update()` at elapsed `d1 ≥ 500` sets `_released` (keeping `_release_time`)
and a later `update()` at elapsed `d2 ≥ 1500` clears `_released`, `_release_time` and the
notification flag, while neither of them, nor any sequence of calls whatever, dispatches
a relay or servo call. -/
theorem unrecognized_kind_runs_cycle (w : World) (t0 d1 d2 : Nat) (ops : List Op)
    (hen : 0 < w.chute._enabled) (hrel : w.chute._released = false)
    (hkind : (4 ≤ w.chute._release_type ∧ w.chute._release_type ≤ 9) ∨
      (11 ≤ w.chute._release_type ∧ w.chute._release_type ≤ 127))
    (h0 : t0 ≠ 0) (hlt : t0 < 4294967296)
    (hd1 : d1 < 4294967296) (hd2 : d2 < 4294967296)
    (h500 : 500 ≤ d1) (h1500 : 1500 ≤ d2) :
    (release t0 w).chute._release_time = t0 ∧
    (release t0 w).parachute_release = true ∧
    (update ((t0 + d1) % 4294967296) (release t0 w)).2 = [] ∧
    (update ((t0 + d1) % 4294967296) (release t0 w)).1.chute._released = true ∧
    (update ((t0 + d1) % 4294967296) (release t0 w)).1.chute._release_time = t0 ∧
    (update ((t0 + d2) % 4294967296)
      (update ((t0 + d1) % 4294967296) (release t0 w)).1).2 = [] ∧
    (update ((t0 + d2) % 4294967296)
      (update ((t0 + d1) % 4294967296) (release t0 w)).1).1.chute._released = false ∧
    (update ((t0 + d2) % 4294967296)
      (update ((t0 + d1) % 4294967296) (release t0 w)).1).1.chute._release_time = 0 ∧
    (update ((t0 + d2) % 4294967296)
      (update ((t0 + d1) % 4294967296) (release t0 w)).1).1.parachute_release = false ∧
    (run ops w).2 = [] := by
  have hne : ¬ w.chute._enabled ≤ 0 := not_le.mpr hen
  have hk : 3 < w.chute._release_type ∧ w.chute._release_type ≠ 10 := by omega
  have hk3 : ¬ w.chute._release_type ≤ 3 := not_le.mpr hk.1
  have htd1 := time_diff_add t0 d1 hlt hd1
  have htd2 := time_diff_add t0 d2 hlt hd2
  have hr : release t0 w =
      { chute := { w.chute with _release_time := t0 }, parachute_release := true } := by
    simp [release, hne]
  have hu1 : update ((t0 + d1) % 4294967296)
      { chute := { w.chute with _release_time := t0 }, parachute_release := true } =
      ({ chute := { w.chute with _release_time := t0, _released := true },
         parachute_release := true }, []) := by
    simp [update, hne, h0, hrel, htd1, h500, hk.2, hk3, AP_PARACHUTE_RELEASE_DELAY_MS,
      AP_PARACHUTE_TRIGGER_TYPE_SERVO, AP_PARACHUTE_TRIGGER_TYPE_RELAY_3]
  have hu2 : update ((t0 + d2) % 4294967296)
      { chute := { w.chute with _release_time := t0, _released := true },
        parachute_release := true } =
      ({ chute := { w.chute with _release_time := 0, _released := false },
         parachute_release := false }, []) := by
    simp [update, hne, h0, htd2, h1500, hk.2, hk3, AP_PARACHUTE_RELEASE_DELAY_MS,
      AP_PARACHUTE_RELEASE_DURATION_MS,
      AP_PARACHUTE_TRIGGER_TYPE_SERVO, AP_PARACHUTE_TRIGGER_TYPE_RELAY_3]
  rw [hr, hu1]
  simp [hu2, run_calls_unrecognized ops w hk]

/-- C20, concrete instance of `unrecognized_kind_runs_cycle` with kind 7. -/
theorem unrecognized_kind_runs_cycle_witness :
    (update ((1000 + 500) % 4294967296) (release 1000 kindSeven)).2 = [] ∧
    (update ((1000 + 500) % 4294967296) (release 1000 kindSeven)).1.chute._released
      = true :=
  have h := unrecognized_kind_runs_cycle kindSeven 1000 500 1500
    [Op.release 1000, Op.update 1500, Op.update 2500]
    (by decide) (by decide) (by decide) (by decide) (by decide) (by decide) (by decide)
    (by decide) (by decide)
  ⟨h.2.2.1, h.2.2.2.1⟩

end Parachute
